import Mathlib

/-!
Verification of the tracking-bot repository (Hypixel Bedwars statistics
tracker).  The definitions below are a shallow embedding of the Python
sources:

* `src/leaderboard_tracker.py`  — leveling formula, SQL generated ratio
  columns, discovery queue consumption, leaderboard generation;
* `src/bedwars_stats.py`        — win/loss-ratio helper, session diffs,
  winstreak estimation, session processing, recent-games log;
* `src/uuid_ingestor.py`        — scraped-name resolution with a durable
  line cursor;
* `src/extra scripts/recompute_levels.py` — second copy of the leveling
  formula.

Python integers are modelled as `Int` (or `Nat` where the source value is
a non-negative count), Python floats produced by true division as `Rat`
(division results at the inputs of interest are exactly representable and
all comparisons made by the programs are decidable on `Rat`), Python
`None` as `Option.none`.  Python's stable `list.sort` and SQL `ORDER BY`
are modelled with `List.insertionSort`, which is stable with the chosen
total preorders.
-/

/-! ## Leveling formula (`leaderboard_tracker.py`, `calculate_bedwars_level`) -/

namespace LeaderboardTracker

/-- The `for cost in costs: if remaining_xp >= cost: ...else: break` loop of
`calculate_bedwars_level`: greedily consume the listed costs in order,
stopping at the first unaffordable one.  Returns the remaining XP and the
number of levels consumed. -/
def consumeTiers : List Nat → Nat → Nat × Nat
  | [], rem => (rem, 0)
  | c :: cs, rem =>
    if c ≤ rem then
      let p := consumeTiers cs (rem - c)
      (p.1, p.2 + 1)
    else (rem, 0)

/-- `calculate_bedwars_level` from `src/leaderboard_tracker.py` (lines
388-421): prestiges of 487000 XP worth 100 levels each; within the
remainder the first four levels cost 500/1000/2000/3500, every further
level costs 5000. -/
def calculate_bedwars_level (experience : Nat) : Nat :=
  let xp_for_prestige : Nat := 487000
  let prestiges := experience / xp_for_prestige
  let remaining_xp := experience % xp_for_prestige
  let p := consumeTiers [500, 1000, 2000, 3500] remaining_xp
  prestiges * 100 + (p.2 + p.1 / 5000)

end LeaderboardTracker

namespace RecomputeLevels

/-- The greedy cost-consumption loop of `calculate_bedwars_level` in
`src/extra scripts/recompute_levels.py` (identical source text to the one
in `leaderboard_tracker.py`). -/
def consumeTiers : List Nat → Nat → Nat × Nat
  | [], rem => (rem, 0)
  | c :: cs, rem =>
    if c ≤ rem then
      let p := consumeTiers cs (rem - c)
      (p.1, p.2 + 1)
    else (rem, 0)

/-- `calculate_bedwars_level` from `src/extra scripts/recompute_levels.py`
(lines 6-40). -/
def calculate_bedwars_level (experience : Nat) : Nat :=
  let xp_for_prestige : Nat := 487000
  let prestiges := experience / xp_for_prestige
  let remaining_xp := experience % xp_for_prestige
  let p := consumeTiers [500, 1000, 2000, 3500] remaining_xp
  prestiges * 100 + (p.2 + p.1 / 5000)

end RecomputeLevels

/-- The leveling rule as worded by the spec (C1): `experience div 487000`
prestiges worth 100 levels each; within the remainder greedily consume
500, 1000, 2000, 3500 XP (one level each, stopping at the first
unaffordable tier, here written out as explicit threshold tests); then
the leftover XP integer-divided by 5000 gives further levels. -/
def levelOfExperienceSpec (e : Nat) : Nat :=
  let prestiges := e / 487000
  let r := e % 487000
  let inPrestige :=
    if r < 500 then r / 5000
    else if r - 500 < 1000 then 1 + (r - 500) / 5000
    else if r - 1500 < 2000 then 2 + (r - 1500) / 5000
    else if r - 3500 < 3500 then 3 + (r - 3500) / 5000
    else 4 + (r - 7000) / 5000
  100 * prestiges + inPrestige

/-! ## Ratio convention (`bedwars_stats.py` `calculate_wlr`, SQL generated
columns in `leaderboard_tracker.py`) -/

/-- Round a rational to the nearest integer, ties to even — the behaviour
of Python's builtin `round` on exactly-representable values. -/
def roundHalfEven (q : Rat) : Int :=
  if q - Rat.floor q < 1 / 2 then Rat.floor q
  else if (1 : Rat) / 2 < q - Rat.floor q then Rat.floor q + 1
  else if Rat.floor q % 2 = 0 then Rat.floor q else Rat.floor q + 1

/-- Python's `round(x, 3)`. -/
def pythonRound3 (q : Rat) : Rat :=
  (roundHalfEven (1000 * q) : Rat) / 1000

namespace BedwarsStats

/-- `calculate_wlr` from `src/bedwars_stats.py` (lines 101-104):
`round(wins / losses, 3) if losses > 0 else float(wins)`. -/
def calculate_wlr (wins losses : Int) : Rat :=
  if 0 < losses then pythonRound3 ((wins : Rat) / (losses : Rat)) else (wins : Rat)

end BedwarsStats

namespace LeaderboardTracker

/-- The SQL generated-column expression used for `wlr`, `kdr`, `fkdr` and
`bblr` in the `bedwars_stats` table of `src/leaderboard_tracker.py`
(lines 116-119): `CASE WHEN den > 0 THEN CAST(num AS REAL) / den ELSE num
END`. -/
def ratioColumn (num den : Int) : Rat :=
  if 0 < den then (num : Rat) / (den : Rat) else (num : Rat)

end LeaderboardTracker

/-- The ratio convention as worded by the spec (C2): `ratio(W, L) = W / L`
if `L > 0`, else `W`, as a float. -/
def ratioSpec (w l : Int) : Rat :=
  if 0 < l then (w : Rat) / (l : Rat) else (w : Rat)

/-! ## Session tracker data model (`bedwars_stats.py`)

Parsed stats always carry the four tracked modes (`_parse_bedwars_stats`
emits `solos`/`doubles`/`threes`/`fours` unconditionally, and baselines
are saved parsed stats), so `modes` is total.  Dictionary keys with the
shape `{"wins", "losses", "WLR", "winstreak"}` become structures; the
hidden-winstreak `None` becomes `Option.none`. -/

namespace BedwarsStats

/-- The four tracked game modes. -/
inductive Mode
  | solos
  | doubles
  | threes
  | fours
deriving DecidableEq

/-- The insertion order of the `modes` dictionary built by
`_parse_bedwars_stats` (and hence of `modes_diff` and of the scope list of
`update_winstreak_estimates`). -/
def modeList : List Mode := [.solos, .doubles, .threes, .fours]

/-- Per-mode stats as parsed by `_parse_mode_stats`. -/
structure ModeStats where
  wins : Int
  losses : Int
  wlr : Rat
  winstreak : Option Int

/-- Player stats as parsed by `_parse_bedwars_stats`. -/
structure Stats where
  wins : Int
  losses : Int
  wlr : Rat
  winstreak : Option Int
  modes : Mode → ModeStats

/-- One `{"wins", "losses", "WLR"}` dictionary of a session diff. -/
structure DiffEntry where
  wins : Int
  losses : Int
  wlr : Rat
deriving DecidableEq

/-- A session diff: `{"overall": ..., "modes": ...}`; a mode absent from
the `modes` dictionary is `none`. -/
structure SessionDiff where
  overall : DiffEntry
  modes : Mode → Option DiffEntry

/-- `calculate_session_diff` from `src/bedwars_stats.py` (lines 239-250):
per-scope subtraction, `calculate_wlr` on the diff itself, and modes whose
wins and losses deltas are both zero are omitted. -/
def calculate_session_diff (current baseline : Stats) : SessionDiff :=
  let ow := current.wins - baseline.wins
  let ol := current.losses - baseline.losses
  { overall := ⟨ow, ol, calculate_wlr ow ol⟩
    modes := fun m =>
      let wd := (current.modes m).wins - (baseline.modes m).wins
      let ld := (current.modes m).losses - (baseline.modes m).losses
      if wd = 0 ∧ ld = 0 then none
      else some ⟨wd, ld, calculate_wlr wd ld⟩ }

/-- A winstreak-estimate scope: `"overall"` or one of the mode keys. -/
inductive Scope
  | overall
  | mode (m : Mode)
deriving DecidableEq

/-- One scope's entry of the `winstreak` dictionary.  The `api_value` key
is only present after a literal winstreak was reported. -/
structure WinstreakEntry where
  api_value : Option Int
  min_possible : Int
  max_possible : Int
  likely : Rat
deriving DecidableEq

/-- The `wins, losses, api_winstreak` initialisation of one iteration of
the scope loop in `update_winstreak_estimates` (lines 255-262).  Note that
for a mode scope the source reads `diff["overall"]["wins"]` and
`diff["overall"]["losses"]` (line 261), not the mode's own deltas; only
`api_winstreak` is read from the mode. -/
def scopeParams (diff : SessionDiff) (current : Stats) :
    Scope → Int × Int × Option Int
  | .overall => (diff.overall.wins, diff.overall.losses, current.winstreak)
  | .mode m =>
    match diff.modes m with
    | some _ => (diff.overall.wins, diff.overall.losses, (current.modes m).winstreak)
    | none => (0, 0, none)

/-- The body of the scope loop of `update_winstreak_estimates` (lines
263-275). -/
def updateScope (diff : SessionDiff) (current : Stats)
    (wd : Scope → Option WinstreakEntry) (s : Scope) :
    Scope → Option WinstreakEntry :=
  let p := scopeParams diff current s
  let wins := p.1
  let losses := p.2.1
  let api := p.2.2
  if wins = 0 ∧ losses = 0 then wd
  else
    let e := (wd s).getD ⟨none, 0, 0, 0⟩
    let e' : WinstreakEntry :=
      match api with
      | some a => ⟨some a, a, a, (a : Rat)⟩
      | none =>
        if 0 < losses then
          ⟨e.api_value, 0, wins, (wins : Rat) / ((losses : Rat) + 1)⟩
        else
          ⟨e.api_value, e.min_possible + wins, e.max_possible + wins,
            e.likely + (wins : Rat)⟩
    fun s' => if s' = s then some e' else wd s'

/-- `update_winstreak_estimates` from `src/bedwars_stats.py` (lines
252-275): visit `"overall"` followed by the modes present in the diff (in
dictionary insertion order) and update each scope's entry. -/
def update_winstreak_estimates (wd : Scope → Option WinstreakEntry)
    (diff : SessionDiff) (current : Stats) : Scope → Option WinstreakEntry :=
  let scopes := Scope.overall ::
    (modeList.filter (fun m => (diff.modes m).isSome)).map Scope.mode
  scopes.foldl (updateScope diff current) wd

/-- One value of the cooldown dictionary:
`{"last_check": ..., "api_on": True}`. -/
structure CooldownEntry where
  last_check : String
  api_on : Bool

/-- A per-player session file: the `winstreak` dictionary, the numbered
`session_k` entries (`session_k` is element `k - 1`; the source keeps the
keys densely numbered from 1 and sorted), and the regenerated `summary`
list. -/
structure SessionData where
  winstreak : Scope → Option WinstreakEntry
  sessions : List SessionDiff
  summary : List String

/-- The per-player file-resident state touched by
`process_player_session`: the baseline file, the session file and this
player's entry of the cooldown dictionary (absent files are `none`). -/
structure PlayerState where
  baseline : Option Stats
  session : Option SessionData
  cooldown : Option CooldownEntry

/-- Python key of a mode in the parsed dictionaries. -/
def modeName : Mode → String
  | .solos => "solos"
  | .doubles => "doubles"
  | .threes => "threes"
  | .fours => "fours"

/-- One line of `build_session_summary`:
`"Session {n}:"` followed by `"{Mode} W/L: {wins}/{losses}"` for each mode
present, joined by spaces. -/
def summaryLine (n : Nat) (d : SessionDiff) : String :=
  let parts := s!"Session {n}:" ::
    (modeList.filterMap fun m =>
      (d.modes m).map fun md =>
        let cap := (modeName m).capitalize
        s!"{cap} W/L: {md.wins}/{md.losses}")
  String.intercalate " " parts

/-- Summary lines for sessions numbered from `n` upward. -/
def buildSummaryFrom : Nat → List SessionDiff → List String
  | _, [] => []
  | n, d :: ds => summaryLine n d :: buildSummaryFrom (n + 1) ds

/-- `build_session_summary` from `src/bedwars_stats.py` (lines 277-288):
one line per numbered session, in session order. -/
def build_session_summary (sessions : List SessionDiff) : List String :=
  buildSummaryFrom 1 sessions

/-- `process_player_session` from `src/bedwars_stats.py` (lines 309-343),
for an already fetched `current`: bootstrap the baseline if missing;
return unchanged when wins and losses equal the baseline; otherwise append
the diff as a new numbered session, update the winstreak estimate, refresh
the summary, replace the baseline, and put the player on cooldown when the
session's total games delta is 1 or 2 (`now` stands for
`datetime.now().isoformat()`). -/
def process_player_session (now : String) (st : PlayerState)
    (current : Stats) : PlayerState :=
  match st.baseline with
  | none => { st with baseline := some current }
  | some b =>
    if current.wins = b.wins ∧ current.losses = b.losses then st
    else
      let sd := st.session.getD ⟨fun _ => none, [], []⟩
      let diff := calculate_session_diff current b
      let games := diff.overall.wins + diff.overall.losses
      let cooldown' :=
        if 1 ≤ games ∧ games ≤ 2 then some ⟨now, true⟩ else st.cooldown
      let ws' := update_winstreak_estimates sd.winstreak diff current
      let sessions' := sd.sessions ++ [diff]
      { baseline := some current
        session := some ⟨ws', sessions', build_session_summary sessions'⟩
        cooldown := cooldown' }

/-- A current-stats value for the C3 scenario: no winstreak reported by
the API, for any scope. -/
def c3Current : Stats := ⟨107, 51, 0, none, fun _ => ⟨0, 0, 0, none⟩⟩

/-- A session diff for the C3 scenario: overall 7 wins / 1 loss, solos
2 wins / 1 loss, doubles 5 wins / 0 losses (consistent: overall is the sum
of the mode deltas), threes and fours omitted. -/
def c3Diff : SessionDiff :=
  ⟨⟨7, 1, 0⟩, fun m =>
    match m with
    | .solos => some ⟨2, 1, 0⟩
    | .doubles => some ⟨5, 0, 0⟩
    | .threes => none
    | .fours => none⟩

/-- Baseline stats for the C5 counterexample. -/
def c5Baseline : Stats := ⟨100, 40, 0, none, fun _ => ⟨25, 10, 0, none⟩⟩

/-- Current stats for the C5 counterexample: one more win and three more
losses than the baseline (the mode stats are unchanged). -/
def c5Current : Stats := ⟨101, 43, 0, none, fun _ => ⟨25, 10, 0, none⟩⟩

/-- One entry of the recent-games API response with `gameType ==
"BEDWARS"` (the fields read by `_parse_bedwars_game`). -/
structure RawGame where
  date : Int
  mode : String
  map : String

/-- One entry of the per-player recent-games log. -/
structure ParsedGame where
  game_id : String
  timestamp : Int
  mode : String
  map : String
deriving DecidableEq

/-- The `mode_mapping` dictionary lookup of `_parse_bedwars_game` (lines
202-206): known raw codes map to human labels, anything else passes
through unchanged (`mode_mapping.get(mode, mode)`). -/
def mode_mapping (m : String) : String :=
  if m = "BEDWARS_EIGHT_ONE" then "solos"
  else if m = "BEDWARS_EIGHT_TWO" then "doubles"
  else if m = "BEDWARS_FOUR_THREE" then "threes"
  else if m = "BEDWARS_FOUR_FOUR" then "fours"
  else m

/-- `_parse_bedwars_game` from `src/bedwars_stats.py` (lines 197-211):
the game id is `f"{date}_{mode}_{map}"` built from the raw mode code. -/
def parse_bedwars_game (g : RawGame) : ParsedGame :=
  ⟨s!"{g.date}_{g.mode}_{g.map}", g.date, mode_mapping g.mode, g.map⟩

/-- The ids of a list of log entries. -/
abbrev gameIds (l : List ParsedGame) : List String := l.map (·.game_id)

/-- Newest-first order on log entries. -/
def sortedByTimestampDesc (l : List ParsedGame) : Prop :=
  List.Pairwise (fun a b : ParsedGame => b.timestamp ≤ a.timestamp) l

/-- The log update of `process_recent_games` (lines 290-305): drop fetched
games whose id is already present, and if any remain, merge them in front
of the existing log, stable-sort descending by timestamp (`list.sort` with
`reverse=True`), and truncate to the newest 50. -/
def process_recent_games_log (existing fetched : List ParsedGame) :
    List ParsedGame :=
  let existingIds := gameIds existing
  let newGames := fetched.filter fun g => decide (g.game_id ∉ existingIds)
  if newGames = [] then existing
  else
    ((newGames ++ existing).insertionSort
      (fun a b : ParsedGame => b.timestamp ≤ a.timestamp)).take 50

/-- Demo log entry for the C6 witness. -/
def c6Game : ParsedGame := parse_bedwars_game ⟨1000, "BEDWARS_EIGHT_ONE", "Aquarium"⟩

/-- Demo log for the C6 witness. -/
def c6Existing : List ParsedGame := [c6Game]

/-- Mode stats of the C4 demo baseline/current. -/
def demoModeStats : ModeStats := ⟨3, 2, 0, none⟩

/-- Demo stats for the C4 witness. -/
def demoStats : Stats := ⟨10, 5, 2, none, fun _ => demoModeStats⟩

/-- Demo player state for the C4 witness: baseline present, no session
file, no cooldown. -/
def demoState : PlayerState := ⟨some demoStats, none, none⟩

end BedwarsStats

/-! ## Discovery queue (`leaderboard_tracker.py`, `process_discovery_queue`)

`player_discovery` rows become `DiscEntry` values (rows are never
deleted); the `players` table is modelled by its uuid column, which is
all the queue logic reads.  The external effects of one loop iteration —
the rate-limit budget observed at the top of the iteration, and the
outcome of `fetch_player_stats` together with any guild members
discovered on success — are supplied by an oracle indexed by the
iteration number; `CURRENT_TIMESTAMP` for rows inserted during the
iteration is the oracle's `now`. -/

namespace LeaderboardTracker

/-- One row of the `player_discovery` table. -/
structure DiscEntry where
  id : Nat
  discovered_uuid : String
  discovery_method : String
  discovered_at : Nat
  processed : Bool
deriving DecidableEq

/-- The tables touched by queue consumption. -/
structure DiscState where
  queue : List DiscEntry
  players : List String
deriving DecidableEq

/-- The selection query of `process_discovery_queue` (lines 484-488):
`WHERE processed = FALSE ORDER BY discovered_at LIMIT ?`. -/
def selectUnprocessed (q : List DiscEntry) (limit : Nat) : List DiscEntry :=
  ((q.filter fun e => !e.processed).insertionSort
    (fun a b : DiscEntry => a.discovered_at ≤ b.discovered_at)).take limit

/-- `UPDATE player_discovery SET processed = TRUE WHERE id = ?` (lines
502-505). -/
def markProcessed (q : List DiscEntry) (i : Nat) : List DiscEntry :=
  q.map fun e => if e.id = i then { e with processed := true } else e

/-- The id AUTOINCREMENT gives the next inserted row. -/
def nextId (q : List DiscEntry) : Nat := (q.map (·.id)).foldr max 0 + 1

/-- `add_player_to_discovery` (lines 287-315) for an already formatted
uuid: skip when the uuid is in `players` or already occurs in the
discovery queue, else insert an unprocessed row with a fresh id.  (With
raw and formatted uuid equal in the model, the source's
precedence-sensitive `discovered_uuid = ? OR discovered_uuid = ? AND
processed = FALSE` collapses to plain uuid equality.) -/
def add_player_to_discovery (s : DiscState) (u method : String) (now : Nat) :
    DiscState :=
  if u ∈ s.players then s
  else if s.queue.any fun e => decide (e.discovered_uuid = u) then s
  else { s with queue := s.queue ++ [⟨nextId s.queue, u, method, now, false⟩] }

/-- External events of one iteration of the queue loop. -/
structure OracleStep where
  rateLimit : Nat
  now : Nat
  fetched : Option (List String)

/-- The body of one iteration of `process_discovery_queue` (lines
493-523) past the rate-limit check: mark the entry processed FIRST, then
attempt the fetch; on success upsert the player row and enqueue its guild
members.  `fetched = none` covers a failed fetch and one below the
minimum-wins threshold; the member list is empty when the guild walk is
skipped. -/
def discStep (s : DiscState) (e : DiscEntry) (o : OracleStep) : DiscState :=
  let s1 : DiscState := { s with queue := markProcessed s.queue e.id }
  match o.fetched with
  | none => s1
  | some members =>
    let s2 : DiscState :=
      { s1 with players := if e.discovered_uuid ∈ s1.players then s1.players
                           else s1.players ++ [e.discovered_uuid] }
    members.foldl (fun acc u => add_player_to_discovery acc u "guild" o.now) s2

/-- The loop of `process_discovery_queue`: stop as soon as the remaining
rate-limit budget is 5 or below, else run `discStep`.  Returns the final
state and the ids whose stat fetch was attempted. -/
def discLoop (oracle : Nat → OracleStep) :
    List DiscEntry → Nat → DiscState → DiscState × List Nat
  | [], _, s => (s, [])
  | e :: rest, k, s =>
    if (oracle k).rateLimit ≤ 5 then (s, [])
    else
      let p := discLoop oracle rest (k + 1) (discStep s e (oracle k))
      (p.1, e.id :: p.2)

/-- `process_discovery_queue` from `src/leaderboard_tracker.py` (lines
479-525). -/
def process_discovery_queue (oracle : Nat → OracleStep) (limit : Nat)
    (s : DiscState) : DiscState × List Nat :=
  discLoop oracle (selectUnprocessed s.queue limit) 0 s

/-- The state after `k` runs of `process_discovery_queue`; run `j` sees
oracle `oracles j` and batch limit `limits j`. -/
def discRun (oracles : Nat → Nat → OracleStep) (limits : Nat → Nat)
    (s0 : DiscState) : Nat → DiscState
  | 0 => s0
  | k + 1 =>
    (process_discovery_queue (oracles k) (limits k)
      (discRun oracles limits s0 k)).1

/-- A consumed entry: its id is present in the queue, and every row
carrying that id is marked processed. -/
def consumedInv (i : Nat) (q : List DiscEntry) : Prop :=
  (∃ e ∈ q, e.id = i) ∧ ∀ e ∈ q, e.id = i → e.processed = true

/-- Demo queue entry for the C7 witness. -/
def c7Entry : DiscEntry := ⟨1, "u1", "leaderboard_BEDWARS_Wins", 10, false⟩

/-- Demo store for the C7 witness: one unprocessed entry, no players. -/
def c7State : DiscState := ⟨[c7Entry], []⟩

/-- Demo oracle for the C7 witness: plenty of rate limit, every fetch
fails. -/
def c7Oracle : Nat → Nat → OracleStep := fun _ _ => ⟨100, 11, none⟩

/-- Demo batch limits for the C7 witness. -/
def c7Limits : Nat → Nat := fun _ => 10

end LeaderboardTracker

/-! ## Leaderboard generation (`leaderboard_tracker.py`,
`generate_leaderboards`)

A `players` row keeps the columns the ranking query reads; a
`bedwars_stats` row keeps its uuid, insertion timestamp (`TIMESTAMP`
values are totally ordered, modelled as `Nat`) and the raw counters the
query selects.  The generated ratio columns are `STORED` expressions over
the raw counters and are modelled as functions of the row. -/

namespace LeaderboardTracker

/-- One row of the `players` table (the selected columns). -/
structure LbPlayer where
  uuid : String
  username : String
deriving DecidableEq

/-- One row of the `bedwars_stats` table (the selected raw columns). -/
structure LbSnapshot where
  uuid : String
  timestamp : Nat
  wins : Int
  losses : Int
  kills : Int
  deaths : Int
  final_kills : Int
  final_deaths : Int
  beds_broken : Int
  beds_lost : Int
  solos_wins : Int
  doubles_wins : Int
  threes_wins : Int
  fours_wins : Int
deriving DecidableEq

/-- The generated `wlr` column of a row. -/
def wlrCol (s : LbSnapshot) : Rat := ratioColumn s.wins s.losses

/-- The generated `kdr` column of a row. -/
def kdrCol (s : LbSnapshot) : Rat := ratioColumn s.kills s.deaths

/-- The generated `fkdr` column of a row. -/
def fkdrCol (s : LbSnapshot) : Rat := ratioColumn s.final_kills s.final_deaths

/-- The generated `bblr` column of a row. -/
def bblrCol (s : LbSnapshot) : Rat := ratioColumn s.beds_broken s.beds_lost

/-- `SELECT MAX(timestamp) FROM bedwars_stats s2 WHERE s2.uuid = s.uuid`
(0 when the uuid has no rows; the enclosing filter is then empty
anyway). -/
def maxTimestamp (snaps : List LbSnapshot) (u : String) : Nat :=
  ((snaps.filter fun s => decide (s.uuid = u)).map (·.timestamp)).foldr max 0

/-- The joined latest-snapshot rows of the leaderboard query (lines
545-556): `bedwars_stats s JOIN players p ON s.uuid = p.uuid WHERE
s.timestamp = (SELECT MAX(timestamp) ...)`. -/
def latestRows (players : List LbPlayer) (snaps : List LbSnapshot) :
    List (LbPlayer × LbSnapshot) :=
  players.flatMap fun p =>
    (snaps.filter fun s =>
      decide (s.uuid = p.uuid ∧ s.timestamp = maxTimestamp snaps p.uuid)).map
      fun s => (p, s)

/-- `enumerate(results, 1)` (line 567): dense ranks from `n`. -/
def rankFrom (n : Nat) : List α → List (Nat × α)
  | [] => []
  | x :: xs => (n, x) :: rankFrom (n + 1) xs

/-- One leaderboard of `generate_leaderboards` (lines 527-591): the
latest row per player, `ORDER BY metric DESC` (ties in unspecified order;
modelled as the stable sort), `LIMIT 100`, ranks assigned densely from
1. -/
def generate_leaderboard (players : List LbPlayer) (snaps : List LbSnapshot)
    (metric : LbSnapshot → Rat) : List (Nat × LbPlayer × LbSnapshot) :=
  rankFrom 1
    (((latestRows players snaps).insertionSort
      (fun a b : LbPlayer × LbSnapshot => metric b.2 ≤ metric a.2)).take 100)

/-- The fixed metric set of `generate_leaderboards` (lines 531-542):
wins, wlr, final kills, fkdr, beds broken, bblr, and the four per-mode
win counts. -/
def lbMetrics : List (LbSnapshot → Rat) :=
  [fun s => (s.wins : Rat), wlrCol, fun s => (s.final_kills : Rat), fkdrCol,
   fun s => (s.beds_broken : Rat), bblrCol, fun s => (s.solos_wins : Rat),
   fun s => (s.doubles_wins : Rat), fun s => (s.threes_wins : Rat),
   fun s => (s.fours_wins : Rat)]

/-- A demo snapshot with the given uuid and win count. -/
def c8Snap (u : String) (w : Int) : LbSnapshot :=
  ⟨u, 1, w, 0, 0, 0, 0, 0, 0, 0, 0, 0, 0, 0⟩

/-- Demo players for the C8 witness. -/
def c8Players : List LbPlayer := [⟨"a", "A"⟩, ⟨"b", "B"⟩, ⟨"c", "C"⟩]

/-- Demo snapshots for the C8 witness: wins 10, 50, 30. -/
def c8Snaps : List LbSnapshot := [c8Snap "a" 10, c8Snap "b" 50, c8Snap "c" 30]

/-- The wins metric (head of `lbMetrics`). -/
def c8Wins : LbSnapshot → Rat := fun s => (s.wins : Rat)

end LeaderboardTracker

/-! ## Scraped-name resolution (`uuid_ingestor.py`,
`process_scraped_names`)

The outcome of `get_player_uuid_and_name` for one name is supplied by an
oracle: `success uuid currentName` for the `"SUCCESS"` status, `notFound`
for `"PLAYER_NOT_FOUND"` (identity API 404), `failed` for `"ERROR"` (a
rate-limit or transient failure that exhausted the three in-call
retries; the function returns no other status, so the caller's
`"RATE_LIMITED"` comparison is dead code).  State is reduced to what the
loop writes: the line cursor of the progress file, the unprocessed
discovery-queue uuids and the known player uuids. -/

namespace UuidIngestor

/-- Return status of `get_player_uuid_and_name` (lines 102-156). -/
inductive LookupOutcome
  | success (uuid : String) (currentName : String)
  | notFound
  | failed
deriving DecidableEq

/-- The state written by the ingestor. -/
structure IngestState where
  cursor : Nat
  queue : List String
  players : List String
deriving DecidableEq

/-- Python's `str.strip()` on the whitespace kinds occurring in a
scraped-names file (structural over the character list so that concrete
runs evaluate). -/
def pyStrip (s : String) : String :=
  ⟨((s.data.dropWhile Char.isWhitespace).reverse.dropWhile Char.isWhitespace).reverse⟩

/-- `add_uuid_to_discovery_queue` (lines 177-207): skip when the uuid is
already a player or already queued unprocessed, else insert. -/
def add_uuid_to_discovery_queue (s : IngestState) (u : String) : IngestState :=
  if u ∈ s.players ∨ u ∈ s.queue then s
  else { s with queue := s.queue ++ [u] }

/-- The line loop of `process_scraped_names` (lines 219-246), with the
cursor value `c0` read once from the progress file at the start of the
run; `i` is the 1-based line number.  Returns the final state and the
names looked up during the run.  A `success` or `notFound` outcome
writes the line number to the progress file; a `failed` outcome leaves
the file untouched — but the loop continues with the next line. -/
def ingestLoop (lookup : String → LookupOutcome) (c0 : Nat) :
    List String → Nat → IngestState → IngestState × List String
  | [], _, s => (s, [])
  | line :: rest, i, s =>
    if i ≤ c0 then ingestLoop lookup c0 rest (i + 1) s
    else
      let name := pyStrip line
      if name = "" then ingestLoop lookup c0 rest (i + 1) { s with cursor := i }
      else
        match lookup name with
        | .success uuid _ =>
          let s1 := add_uuid_to_discovery_queue s uuid
          let p := ingestLoop lookup c0 rest (i + 1) { s1 with cursor := i }
          (p.1, name :: p.2)
        | .notFound =>
          let p := ingestLoop lookup c0 rest (i + 1) { s with cursor := i }
          (p.1, name :: p.2)
        | .failed =>
          let p := ingestLoop lookup c0 rest (i + 1) s
          (p.1, name :: p.2)

/-- `process_scraped_names` from `src/uuid_ingestor.py` (lines 209-253):
one pass over the scraped-names file starting after the stored cursor. -/
def process_scraped_names (lookup : String → LookupOutcome)
    (lines : List String) (s : IngestState) : IngestState × List String :=
  ingestLoop lookup s.cursor lines 1 s

/-- The C9 scenario: resolving `"alice"` fails transiently, every other
name resolves. -/
def c9Lookup : String → LookupOutcome :=
  fun n => if n = "alice" then .failed else .success "u-bob" n

/-- The C9 scraped-names file. -/
def c9Lines : List String := ["alice", "bob"]

/-- First run of the C9 scenario from a fresh state. -/
def c9Run1 : IngestState × List String :=
  process_scraped_names c9Lookup c9Lines ⟨0, [], []⟩

end UuidIngestor

/-! # Theorems -/

theorem ratFloor_eq_floor (q : Rat) : Rat.floor q = ⌊q⌋ := by
  rw [Rat.floor_def', Rat.floor_def]

theorem pythonRound3_intCast (n : Int) : pythonRound3 ((n : Rat)) = (n : Rat) := by
  unfold pythonRound3 roundHalfEven
  have h1 : ((1000 : Rat) * (n : Rat)) = ((1000 * n : Int) : Rat) := by push_cast; ring
  rw [h1, ratFloor_eq_floor, Int.floor_intCast]
  have h2 : ((1000 * n : Int) : Rat) - ((1000 * n : Int) : Rat) = 0 := by ring
  rw [h2]
  norm_num

theorem pythonRound3_eq_of_floor (q : Rat) (z : Int) (hz : ⌊1000 * q⌋ = z)
    (hlt : 1000 * q - (z : Rat) < 1 / 2) : pythonRound3 q = (z : Rat) / 1000 := by
  unfold pythonRound3 roundHalfEven
  rw [ratFloor_eq_floor, hz, if_pos hlt]

/-- C2 counterexample: the session tracker's `calculate_wlr` does not
return `W / L` for `W = 1, L = 3` — the source rounds the quotient to
three decimal places. -/
theorem C2_counterexample_rounding :
    BedwarsStats.calculate_wlr 1 3 ≠ (1 : Rat) / 3 := by
  have hz : ⌊(1000 : Rat) * ((1 : Int) / ((3 : Int) : Rat))⌋ = 333 := by
    rw [Int.floor_eq_iff]
    norm_num
  have h := pythonRound3_eq_of_floor ((1 : Int) / ((3 : Int) : Rat)) 333 hz (by norm_num)
  unfold BedwarsStats.calculate_wlr
  rw [if_pos (by norm_num : (0 : Int) < 3)]
  push_cast at h ⊢
  rw [h]
  norm_num

/-- C2 (amended): the stored snapshot's generated ratio columns
(`wlr`/`kdr`/`fkdr`/`bblr`, all instances of `ratioColumn`) satisfy the
convention `ratio(W, L) = W / L` if `L > 0` else `W` exactly, with
`ratio(0, 0) = 0`; the session tracker's `calculate_wlr` satisfies the
convention only up to rounding the quotient to three decimal places
(Python `round(·, 3)`), and equals it exactly when `L = 0`. -/
theorem C2_ratio_convention_amended :
    (∀ w l : Int, LeaderboardTracker.ratioColumn w l = ratioSpec w l) ∧
      (∀ w l : Int,
        BedwarsStats.calculate_wlr w l = pythonRound3 (ratioSpec w l)) ∧
      (∀ w : Int, BedwarsStats.calculate_wlr w 0 = (w : Rat)) ∧
      LeaderboardTracker.ratioColumn 0 0 = 0 ∧
      BedwarsStats.calculate_wlr 0 0 = 0 := by
  refine ⟨fun w l => rfl, fun w l => ?_, fun w => ?_,
    by norm_num [LeaderboardTracker.ratioColumn],
    by norm_num [BedwarsStats.calculate_wlr]⟩
  · unfold BedwarsStats.calculate_wlr ratioSpec
    split_ifs
    · rfl
    · exact (pythonRound3_intCast w).symm
  · unfold BedwarsStats.calculate_wlr
    norm_num

/-- C10: the two implementations of the bedwars level computation (in
`leaderboard_tracker.py` and in `extra scripts/recompute_levels.py`) are
extensionally equal: for every non-negative experience they return the
same level. -/
theorem C10_level_functions_agree :
    ∀ e : Nat,
      LeaderboardTracker.calculate_bedwars_level e =
        RecomputeLevels.calculate_bedwars_level e := by
  intro e
  rfl

/-- C1: the leveling function takes `experience div 487000` prestiges
(100 levels each), greedily consumes the 500/1000/2000/3500 tiers within
the remainder, then adds leftover `div 5000` levels; and it satisfies the
spec examples 0 → 0, 500 → 1, 487000 → 100, 7000 → 4, 12000 → 5. -/
theorem C1_leveling_formula :
    (∀ e : Nat,
        LeaderboardTracker.calculate_bedwars_level e = levelOfExperienceSpec e) ∧
      LeaderboardTracker.calculate_bedwars_level 0 = 0 ∧
      LeaderboardTracker.calculate_bedwars_level 500 = 1 ∧
      LeaderboardTracker.calculate_bedwars_level 487000 = 100 ∧
      LeaderboardTracker.calculate_bedwars_level 7000 = 4 ∧
      LeaderboardTracker.calculate_bedwars_level 12000 = 5 := by
  refine ⟨fun e => ?_, by decide, by decide, by decide, by decide, by decide⟩
  show (e / 487000) * 100 +
      ((LeaderboardTracker.consumeTiers [500, 1000, 2000, 3500] (e % 487000)).2 +
        (LeaderboardTracker.consumeTiers [500, 1000, 2000, 3500] (e % 487000)).1 / 5000) =
    levelOfExperienceSpec e
  simp only [LeaderboardTracker.consumeTiers, levelOfExperienceSpec]
  split_ifs <;> omega

/-- C5 counterexample: the claim's "standard ratio convention" (the
spec's exact `W / L` if `L > 0`) does not hold on the diff: for a session
delta of 1 win and 3 losses, the diff's WLR is `round(1/3, 3) = 0.333`,
not `1/3`. -/
theorem C5_counterexample_rounded_ratio :
    (BedwarsStats.calculate_session_diff BedwarsStats.c5Current
      BedwarsStats.c5Baseline).overall.wins = 1 ∧
      (BedwarsStats.calculate_session_diff BedwarsStats.c5Current
        BedwarsStats.c5Baseline).overall.losses = 3 ∧
      (BedwarsStats.calculate_session_diff BedwarsStats.c5Current
        BedwarsStats.c5Baseline).overall.wlr ≠ ratioSpec 1 3 := by
  refine ⟨by decide, by decide, ?_⟩
  have hwlr : (BedwarsStats.calculate_session_diff BedwarsStats.c5Current
      BedwarsStats.c5Baseline).overall.wlr = BedwarsStats.calculate_wlr 1 3 := by
    norm_num [BedwarsStats.calculate_session_diff, BedwarsStats.c5Current,
      BedwarsStats.c5Baseline]
  have hz : ⌊(1000 : Rat) * ((1 : Int) / ((3 : Int) : Rat))⌋ = 333 := by
    rw [Int.floor_eq_iff]
    norm_num
  have h := pythonRound3_eq_of_floor ((1 : Int) / ((3 : Int) : Rat)) 333 hz
    (by norm_num)
  rw [hwlr]
  unfold BedwarsStats.calculate_wlr ratioSpec
  rw [if_pos (by norm_num : (0 : Int) < 3), if_pos (by norm_num : (0 : Int) < 3)]
  push_cast at h ⊢
  rw [h]
  norm_num

/-- C5 (amended): the session diff is current minus baseline per scope,
with the win/loss ratio computed on the diff itself by the session
tracker's own ratio function `calculate_wlr` (the exact convention
rounded to three decimal places when the loss delta is positive, per the
C2 amendment), and a mode is omitted from the diff's modes map exactly
when its wins delta and losses delta are both zero. -/
theorem C5_session_diff :
    ∀ current baseline : BedwarsStats.Stats,
      (BedwarsStats.calculate_session_diff current baseline).overall =
        ⟨current.wins - baseline.wins, current.losses - baseline.losses,
          BedwarsStats.calculate_wlr (current.wins - baseline.wins)
            (current.losses - baseline.losses)⟩ ∧
      ∀ m : BedwarsStats.Mode,
        ((BedwarsStats.calculate_session_diff current baseline).modes m = none ↔
          (current.modes m).wins - (baseline.modes m).wins = 0 ∧
            (current.modes m).losses - (baseline.modes m).losses = 0) ∧
        (BedwarsStats.calculate_session_diff current baseline).modes m =
          (if (current.modes m).wins - (baseline.modes m).wins = 0 ∧
              (current.modes m).losses - (baseline.modes m).losses = 0 then none
           else some ⟨(current.modes m).wins - (baseline.modes m).wins,
             (current.modes m).losses - (baseline.modes m).losses,
             BedwarsStats.calculate_wlr
               ((current.modes m).wins - (baseline.modes m).wins)
               ((current.modes m).losses - (baseline.modes m).losses)⟩) := by
  intro current baseline
  refine ⟨rfl, fun m => ⟨?_, rfl⟩⟩
  show (if _ ∧ _ then none else some _) = none ↔ _
  split_ifs with h
  · simpa using h
  · simpa using h

/-- C3: the claim requires the solos scope of the winstreak estimate to be
updated from the solos session deltas (2 wins, 1 loss: min 0, max 2,
likely 1), but the source reads the overall deltas (7 wins, 1 loss) for
every mode scope, so the solos entry becomes min 0, max 7, likely 7/2. -/
theorem C3_mode_scope_reads_overall_deltas :
    BedwarsStats.update_winstreak_estimates (fun _ => none)
        BedwarsStats.c3Diff BedwarsStats.c3Current
        (BedwarsStats.Scope.mode BedwarsStats.Mode.solos) =
      some ⟨none, 0, 7, 7 / 2⟩ ∧
      some (BedwarsStats.WinstreakEntry.mk none 0 7 (7 / 2)) ≠
        some (BedwarsStats.WinstreakEntry.mk none 0 2 1) := by
  constructor
  · norm_num [BedwarsStats.update_winstreak_estimates, BedwarsStats.updateScope,
      BedwarsStats.scopeParams, BedwarsStats.modeList, BedwarsStats.c3Diff,
      BedwarsStats.c3Current]
    split_ifs <;> simp_all
  · simp only [ne_eq, Option.some.injEq, BedwarsStats.WinstreakEntry.mk.injEq]
    norm_num

/-- C4: processing a player session with unchanged overall wins and losses
is a no-op: the baseline, the session log and the cooldown state are all
left exactly as they were, and no session entry is written. -/
theorem C4_unchanged_stats_noop (now : String) (st : BedwarsStats.PlayerState)
    (current b : BedwarsStats.Stats) (hb : st.baseline = some b)
    (hw : current.wins = b.wins) (hl : current.losses = b.losses) :
    BedwarsStats.process_player_session now st current = st := by
  unfold BedwarsStats.process_player_session
  rw [hb]
  simp [hw, hl]

/-- C4 witness: the no-op theorem applied to a concrete state whose
baseline equals the fetched stats. -/
theorem C4_unchanged_stats_noop_witness :
    BedwarsStats.demoState.baseline = some BedwarsStats.demoStats ∧
      BedwarsStats.demoStats.wins = BedwarsStats.demoStats.wins ∧
      BedwarsStats.demoStats.losses = BedwarsStats.demoStats.losses ∧
      BedwarsStats.process_player_session "2025-01-01T00:00:00"
          BedwarsStats.demoState BedwarsStats.demoStats =
        BedwarsStats.demoState :=
  ⟨rfl, rfl, rfl,
    C4_unchanged_stats_noop "2025-01-01T00:00:00" BedwarsStats.demoState
      BedwarsStats.demoStats BedwarsStats.demoStats rfl rfl rfl⟩

theorem sorted_desc_insertionSort (l : List BedwarsStats.ParsedGame) :
    BedwarsStats.sortedByTimestampDesc
      (l.insertionSort (fun a b : BedwarsStats.ParsedGame => b.timestamp ≤ a.timestamp)) := by
  haveI : IsTotal BedwarsStats.ParsedGame
      (fun a b : BedwarsStats.ParsedGame => b.timestamp ≤ a.timestamp) :=
    ⟨fun a b => le_total b.timestamp a.timestamp⟩
  haveI : IsTrans BedwarsStats.ParsedGame
      (fun a b : BedwarsStats.ParsedGame => b.timestamp ≤ a.timestamp) :=
    ⟨fun a b c h1 h2 => le_trans h2 h1⟩
  exact List.sorted_insertionSort _ l

/-- C6: the recent-games log update keeps ids deduplicated, the length at
most 50 and the entries newest-first; feeding only already-present matches
leaves the log unchanged; and raw mode codes map to the human labels with
unrecognized codes passing through. -/
theorem C6_recent_games_invariants (existing fetched : List BedwarsStats.ParsedGame)
    (h1 : (BedwarsStats.gameIds existing).Nodup)
    (h2 : BedwarsStats.sortedByTimestampDesc existing)
    (h3 : existing.length ≤ 50)
    (h4 : (BedwarsStats.gameIds fetched).Nodup) :
    (BedwarsStats.gameIds (BedwarsStats.process_recent_games_log existing fetched)).Nodup ∧
      BedwarsStats.sortedByTimestampDesc
        (BedwarsStats.process_recent_games_log existing fetched) ∧
      (BedwarsStats.process_recent_games_log existing fetched).length ≤ 50 ∧
      ((∀ g ∈ fetched, g.game_id ∈ BedwarsStats.gameIds existing) →
        BedwarsStats.process_recent_games_log existing fetched = existing) ∧
      BedwarsStats.mode_mapping "BEDWARS_EIGHT_ONE" = "solos" ∧
      BedwarsStats.mode_mapping "BEDWARS_EIGHT_TWO" = "doubles" ∧
      BedwarsStats.mode_mapping "BEDWARS_FOUR_THREE" = "threes" ∧
      BedwarsStats.mode_mapping "BEDWARS_FOUR_FOUR" = "fours" ∧
      (∀ s : String, s ≠ "BEDWARS_EIGHT_ONE" → s ≠ "BEDWARS_EIGHT_TWO" →
        s ≠ "BEDWARS_FOUR_THREE" → s ≠ "BEDWARS_FOUR_FOUR" →
        BedwarsStats.mode_mapping s = s) ∧
      ∀ g : BedwarsStats.RawGame,
        (BedwarsStats.parse_bedwars_game g).mode = BedwarsStats.mode_mapping g.mode := by
  have hpass : ∀ s : String, s ≠ "BEDWARS_EIGHT_ONE" → s ≠ "BEDWARS_EIGHT_TWO" →
      s ≠ "BEDWARS_FOUR_THREE" → s ≠ "BEDWARS_FOUR_FOUR" →
      BedwarsStats.mode_mapping s = s := by
    intro s hs1 hs2 hs3 hs4
    simp [BedwarsStats.mode_mapping, hs1, hs2, hs3, hs4]
  set N := fetched.filter
    (fun g => decide (g.game_id ∉ BedwarsStats.gameIds existing)) with hNdef
  have hres : BedwarsStats.process_recent_games_log existing fetched =
      if N = [] then existing
      else ((N ++ existing).insertionSort
        (fun a b : BedwarsStats.ParsedGame => b.timestamp ≤ a.timestamp)).take 50 := rfl
  by_cases hN : N = []
  · rw [hres, if_pos hN]
    exact ⟨h1, h2, h3, fun _ => rfl, rfl, rfl, rfl, rfl, hpass, fun g => rfl⟩
  · rw [hres, if_neg hN]
    have hsub : List.Sublist N fetched := List.filter_sublist _
    have hNids : (BedwarsStats.gameIds N).Nodup :=
      List.Nodup.sublist (hsub.map (·.game_id)) h4
    have hdisjoint :
        List.Disjoint (BedwarsStats.gameIds N) (BedwarsStats.gameIds existing) := by
      intro x hxN hxE
      rcases List.mem_map.1 hxN with ⟨g, hgN, rfl⟩
      have hg := (List.mem_filter.1 hgN).2
      rw [decide_eq_true_iff] at hg
      exact hg hxE
    have happend : (BedwarsStats.gameIds (N ++ existing)).Nodup := by
      rw [BedwarsStats.gameIds, List.map_append, List.nodup_append]
      exact ⟨hNids, h1, hdisjoint⟩
    have hperm : List.Perm ((N ++ existing).insertionSort
        (fun a b : BedwarsStats.ParsedGame => b.timestamp ≤ a.timestamp)) (N ++ existing) :=
      List.perm_insertionSort _ _
    refine ⟨?_, ?_, ?_, ?_, rfl, rfl, rfl, rfl, hpass, fun g => rfl⟩
    · have hsortids : (BedwarsStats.gameIds ((N ++ existing).insertionSort
          (fun a b : BedwarsStats.ParsedGame => b.timestamp ≤ a.timestamp))).Nodup :=
        (hperm.map (·.game_id)).nodup_iff.2 happend
      exact List.Nodup.sublist
        (List.Sublist.map (fun g : BedwarsStats.ParsedGame => g.game_id)
          (List.take_sublist 50 _)) hsortids
    · exact List.Pairwise.sublist (List.take_sublist _ _) (sorted_desc_insertionSort _)
    · exact List.length_take_le _ _
    · intro hall
      refine absurd ?_ hN
      rw [hNdef]
      refine List.filter_eq_nil_iff.2 fun g hg => ?_
      simpa using hall g hg

/-- C6 witness: feeding the single recent game of a well-formed log a
second time leaves the log unchanged. -/
theorem C6_recent_games_invariants_witness :
    (BedwarsStats.gameIds BedwarsStats.c6Existing).Nodup ∧
      BedwarsStats.sortedByTimestampDesc BedwarsStats.c6Existing ∧
      BedwarsStats.c6Existing.length ≤ 50 ∧
      BedwarsStats.process_recent_games_log BedwarsStats.c6Existing
          BedwarsStats.c6Existing = BedwarsStats.c6Existing := by
  have h1 : (BedwarsStats.gameIds BedwarsStats.c6Existing).Nodup := by
    simp [BedwarsStats.c6Existing]
  have h2 : BedwarsStats.sortedByTimestampDesc BedwarsStats.c6Existing := by
    simp [BedwarsStats.sortedByTimestampDesc, BedwarsStats.c6Existing]
  have h3 : BedwarsStats.c6Existing.length ≤ 50 := by
    simp [BedwarsStats.c6Existing]
  have happ := C6_recent_games_invariants BedwarsStats.c6Existing
    BedwarsStats.c6Existing h1 h2 h3 h1
  refine ⟨h1, h2, h3, happ.2.2.2.1 fun g hg => ?_⟩
  simp only [BedwarsStats.c6Existing, List.mem_singleton] at hg
  subst hg
  simp [BedwarsStats.c6Existing]

namespace LeaderboardTracker

theorem le_foldr_max (a : Nat) : ∀ l : List Nat, a ∈ l → a ≤ l.foldr max 0
  | b :: l, h => by
    rcases List.mem_cons.1 h with rfl | h
    · exact le_max_left _ _
    · exact le_trans (le_foldr_max a l h) (le_max_right _ _)

theorem idMem_markProcessed (q : List DiscEntry) (i j : Nat)
    (h : ∃ e ∈ q, e.id = j) : ∃ e ∈ markProcessed q i, e.id = j := by
  rcases h with ⟨e, he, hej⟩
  refine ⟨_, List.mem_map_of_mem _ he, ?_⟩
  by_cases hc : e.id = i
  · rw [if_pos hc]
    exact hej
  · rw [if_neg hc]
    exact hej

theorem consumedInv_markProcessed (q : List DiscEntry) (i j : Nat)
    (h : consumedInv i q) : consumedInv i (markProcessed q j) := by
  obtain ⟨hmem, hall⟩ := h
  refine ⟨idMem_markProcessed q j i hmem, ?_⟩
  intro e' he' hei
  rcases List.mem_map.1 he' with ⟨a, ha, rfl⟩
  by_cases hc : a.id = j
  · simp [hc]
  · rw [if_neg hc] at hei ⊢
    exact hall a ha hei

theorem consumedInv_markProcessed_self (q : List DiscEntry) (i : Nat)
    (hmem : ∃ e ∈ q, e.id = i) : consumedInv i (markProcessed q i) := by
  refine ⟨idMem_markProcessed q i i hmem, ?_⟩
  intro e' he' hei
  rcases List.mem_map.1 he' with ⟨a, ha, rfl⟩
  by_cases hc : a.id = i
  · rw [if_pos hc]
  · rw [if_neg hc] at hei ⊢
    exact absurd hei hc

theorem idMem_add (s : DiscState) (u method : String) (now : Nat) (j : Nat)
    (h : ∃ e ∈ s.queue, e.id = j) :
    ∃ e ∈ (add_player_to_discovery s u method now).queue, e.id = j := by
  unfold add_player_to_discovery
  split_ifs
  · exact h
  · exact h
  · rcases h with ⟨e, he, hej⟩
    exact ⟨e, List.mem_append_left _ he, hej⟩

theorem consumedInv_add (s : DiscState) (u method : String) (now : Nat) (i : Nat)
    (h : consumedInv i s.queue) :
    consumedInv i (add_player_to_discovery s u method now).queue := by
  obtain ⟨hmem, hall⟩ := h
  unfold add_player_to_discovery
  split_ifs
  · exact ⟨hmem, hall⟩
  · exact ⟨hmem, hall⟩
  · refine ⟨?_, ?_⟩
    · rcases hmem with ⟨e, he, hej⟩
      exact ⟨e, List.mem_append_left _ he, hej⟩
    · intro e' he' hei
      rcases List.mem_append.1 he' with h1 | h1
      · exact hall e' h1 hei
      · rcases List.mem_singleton.1 h1 with rfl
        exfalso
        rcases hmem with ⟨e, he, hej⟩
        have hle : i ≤ (s.queue.map (·.id)).foldr max 0 :=
          le_foldr_max i _ (hej ▸ List.mem_map_of_mem _ he)
        have hni : nextId s.queue = i := hei
        unfold nextId at hni
        omega

theorem consumedInv_foldl_add (i : Nat) (method : String) (now : Nat) :
    ∀ (members : List String) (s : DiscState), consumedInv i s.queue →
      consumedInv i
        ((members.foldl (fun acc u => add_player_to_discovery acc u method now) s)).queue
  | [], _, h => h
  | u :: us, s, h =>
    consumedInv_foldl_add i method now us _ (consumedInv_add s u method now i h)

theorem idMem_foldl_add (j : Nat) (method : String) (now : Nat) :
    ∀ (members : List String) (s : DiscState), (∃ e ∈ s.queue, e.id = j) →
      ∃ e ∈ ((members.foldl (fun acc u => add_player_to_discovery acc u method now) s)).queue,
        e.id = j
  | [], _, h => h
  | u :: us, s, h =>
    idMem_foldl_add j method now us _ (idMem_add s u method now j h)

theorem consumedInv_discStep (s : DiscState) (e : DiscEntry) (o : OracleStep)
    (i : Nat) (h : consumedInv i s.queue) :
    consumedInv i (discStep s e o).queue := by
  have h1 : consumedInv i (markProcessed s.queue e.id) :=
    consumedInv_markProcessed _ i e.id h
  rcases hfo : o.fetched with _ | members
  · simpa [discStep, hfo] using h1
  · simp only [discStep, hfo]
    exact consumedInv_foldl_add i "guild" o.now members _ h1

theorem idMem_discStep (s : DiscState) (e : DiscEntry) (o : OracleStep)
    (j : Nat) (h : ∃ e' ∈ s.queue, e'.id = j) :
    ∃ e' ∈ (discStep s e o).queue, e'.id = j := by
  have h1 := idMem_markProcessed s.queue e.id j h
  rcases hfo : o.fetched with _ | members
  · simpa [discStep, hfo] using h1
  · simp only [discStep, hfo]
    exact idMem_foldl_add j "guild" o.now members _ h1

theorem discStep_consumes (s : DiscState) (e : DiscEntry) (o : OracleStep)
    (hmem : ∃ e' ∈ s.queue, e'.id = e.id) :
    consumedInv e.id (discStep s e o).queue := by
  have h1 : consumedInv e.id (markProcessed s.queue e.id) :=
    consumedInv_markProcessed_self _ _ hmem
  rcases hfo : o.fetched with _ | members
  · simpa [discStep, hfo] using h1
  · simp only [discStep, hfo]
    exact consumedInv_foldl_add e.id "guild" o.now members _ h1

theorem discLoop_preserves (oracle : Nat → OracleStep) :
    ∀ (items : List DiscEntry) (k : Nat) (s : DiscState) (i : Nat),
      consumedInv i s.queue → consumedInv i ((discLoop oracle items k s).1).queue
  | [], _, _, _, h => h
  | e :: rest, k, s, i, h => by
    unfold discLoop
    split_ifs with hrl
    · exact h
    · exact discLoop_preserves oracle rest (k + 1) _ i
        (consumedInv_discStep s e (oracle k) i h)

theorem discLoop_attempted_mark (oracle : Nat → OracleStep) :
    ∀ (items : List DiscEntry) (k : Nat) (s : DiscState),
      (∀ e ∈ items, ∃ e' ∈ s.queue, e'.id = e.id) →
      ∀ i ∈ (discLoop oracle items k s).2,
        consumedInv i ((discLoop oracle items k s).1).queue
  | [], _, _, _, i, hi => by simp [discLoop] at hi
  | e :: rest, k, s, hids, i, hi => by
    unfold discLoop at hi ⊢
    split_ifs at hi ⊢ with hrl
    · simp at hi
    · rcases List.mem_cons.1 hi with rfl | hi'
      · exact discLoop_preserves oracle rest (k + 1) _ _
          (discStep_consumes s e (oracle k) (hids e (List.mem_cons_self e rest)))
      · exact discLoop_attempted_mark oracle rest (k + 1) _
          (fun e' he' => idMem_discStep s e (oracle k) _
            (hids e' (List.mem_cons_of_mem e he'))) i hi'

theorem discLoop_attempted_sub (oracle : Nat → OracleStep) :
    ∀ (items : List DiscEntry) (k : Nat) (s : DiscState),
      ∀ i ∈ (discLoop oracle items k s).2, ∃ e ∈ items, e.id = i
  | [], _, _, i, hi => by simp [discLoop] at hi
  | e :: rest, k, s, i, hi => by
    unfold discLoop at hi
    split_ifs at hi
    · simp at hi
    · rcases List.mem_cons.1 hi with rfl | hi'
      · exact ⟨e, List.mem_cons_self e rest, rfl⟩
      · rcases discLoop_attempted_sub oracle rest (k + 1) _ i hi' with ⟨e', he', hei⟩
        exact ⟨e', List.mem_cons_of_mem e he', hei⟩

theorem mem_selectUnprocessed (q : List DiscEntry) (limit : Nat) (e : DiscEntry)
    (he : e ∈ selectUnprocessed q limit) : e ∈ q ∧ e.processed = false := by
  unfold selectUnprocessed at he
  have h1 := List.take_subset _ _ he
  have h2 := (List.perm_insertionSort
    (fun a b : DiscEntry => a.discovered_at ≤ b.discovered_at) _).mem_iff.1 h1
  have h3 := List.mem_filter.1 h2
  exact ⟨h3.1, by simpa using h3.2⟩

theorem select_avoids_consumed (q : List DiscEntry) (limit : Nat) (i : Nat)
    (h : ∀ e ∈ q, e.id = i → e.processed = true) :
    ∀ e ∈ selectUnprocessed q limit, e.id ≠ i := by
  intro e he hei
  obtain ⟨hq, hp⟩ := mem_selectUnprocessed q limit e he
  rw [h e hq hei] at hp
  cases hp

theorem pdq_consumes (oracle : Nat → OracleStep) (limit : Nat) (s : DiscState)
    (i : Nat) (hi : i ∈ (process_discovery_queue oracle limit s).2) :
    consumedInv i ((process_discovery_queue oracle limit s).1).queue := by
  unfold process_discovery_queue at hi ⊢
  refine discLoop_attempted_mark oracle _ 0 s ?_ i hi
  intro e he
  exact ⟨e, (mem_selectUnprocessed s.queue limit e he).1, rfl⟩

theorem pdq_preserves (oracle : Nat → OracleStep) (limit : Nat) (s : DiscState)
    (i : Nat) (h : consumedInv i s.queue) :
    consumedInv i ((process_discovery_queue oracle limit s).1).queue :=
  discLoop_preserves oracle _ 0 s i h

end LeaderboardTracker

/-- C7: once a queue entry has been consumed — marked processed at the
start of its iteration, before its stat fetch is attempted — it stays
marked and is never selected nor attempted again by any later run of the
queue consumer, even when its fetch failed. -/
theorem C7_discovery_at_most_once (oracles : Nat → Nat → LeaderboardTracker.OracleStep)
    (limits : Nat → Nat) (s0 : LeaderboardTracker.DiscState) (i : Nat)
    (hi : i ∈ (LeaderboardTracker.process_discovery_queue (oracles 0) (limits 0) s0).2) :
    ∀ k, 1 ≤ k →
      LeaderboardTracker.consumedInv i
        (LeaderboardTracker.discRun oracles limits s0 k).queue ∧
      (∀ e ∈ LeaderboardTracker.selectUnprocessed
          (LeaderboardTracker.discRun oracles limits s0 k).queue (limits k),
        e.id ≠ i) ∧
      i ∉ (LeaderboardTracker.process_discovery_queue (oracles k) (limits k)
        (LeaderboardTracker.discRun oracles limits s0 k)).2 := by
  have hinv : ∀ k, 1 ≤ k →
      LeaderboardTracker.consumedInv i
        (LeaderboardTracker.discRun oracles limits s0 k).queue := by
    intro k
    induction k with
    | zero => intro h; exact absurd h (by omega)
    | succ n ih =>
      intro _
      rcases Nat.eq_zero_or_pos n with rfl | hn
      · exact LeaderboardTracker.pdq_consumes (oracles 0) (limits 0) s0 i hi
      · exact LeaderboardTracker.pdq_preserves (oracles n) (limits n) _ i (ih hn)
  intro k hk
  have hc := hinv k hk
  have hsel := LeaderboardTracker.select_avoids_consumed _ (limits k) i hc.2
  refine ⟨hc, hsel, fun hmem => ?_⟩
  rcases LeaderboardTracker.discLoop_attempted_sub (oracles k) _ 0 _ i hmem
    with ⟨e, he, hei⟩
  exact hsel e he hei

/-- C7 witness: a concrete entry whose fetch fails is consumed in the
first run and not attempted by the second run. -/
theorem C7_discovery_at_most_once_witness :
    1 ∈ (LeaderboardTracker.process_discovery_queue (LeaderboardTracker.c7Oracle 0)
        (LeaderboardTracker.c7Limits 0) LeaderboardTracker.c7State).2 ∧
      1 ∉ (LeaderboardTracker.process_discovery_queue (LeaderboardTracker.c7Oracle 1)
        (LeaderboardTracker.c7Limits 1)
        (LeaderboardTracker.discRun LeaderboardTracker.c7Oracle
          LeaderboardTracker.c7Limits LeaderboardTracker.c7State 1)).2 := by
  have hi : 1 ∈ (LeaderboardTracker.process_discovery_queue
      (LeaderboardTracker.c7Oracle 0) (LeaderboardTracker.c7Limits 0)
      LeaderboardTracker.c7State).2 := by decide
  exact ⟨hi, (C7_discovery_at_most_once LeaderboardTracker.c7Oracle
    LeaderboardTracker.c7Limits LeaderboardTracker.c7State 1 hi 1 le_rfl).2.2⟩

namespace LeaderboardTracker

theorem rankFrom_length : ∀ (n : Nat) (l : List α), (rankFrom n l).length = l.length
  | _, [] => rfl
  | n, _ :: xs => by simp [rankFrom, rankFrom_length (n + 1) xs]

theorem rankFrom_map_fst : ∀ (n : Nat) (l : List α),
    (rankFrom n l).map Prod.fst = List.range' n l.length
  | _, [] => rfl
  | n, _ :: xs => by
    simp [rankFrom, List.range', rankFrom_map_fst (n + 1) xs]

theorem rankFrom_map_snd : ∀ (n : Nat) (l : List α),
    (rankFrom n l).map Prod.snd = l
  | _, [] => rfl
  | n, x :: xs => by simp [rankFrom, rankFrom_map_snd (n + 1) xs]

theorem rankFrom_pairwise (R : α → α → Prop) :
    ∀ (n : Nat) (l : List α), List.Pairwise R l →
      List.Pairwise (fun a b : Nat × α => R a.2 b.2) (rankFrom n l)
  | _, [], _ => List.Pairwise.nil
  | n, x :: xs, h => by
    rcases List.pairwise_cons.1 h with ⟨hx, hxs⟩
    refine List.pairwise_cons.2 ⟨?_, rankFrom_pairwise R (n + 1) xs hxs⟩
    intro b hb
    have : b.2 ∈ xs := by
      have := List.mem_map_of_mem Prod.snd hb
      rwa [rankFrom_map_snd] at this
    exact hx b.2 this

theorem rankFrom_snd_mem (n : Nat) (l : List α) (x : Nat × α)
    (hx : x ∈ rankFrom n l) : x.2 ∈ l := by
  have := List.mem_map_of_mem Prod.snd hx
  rwa [rankFrom_map_snd] at this

theorem rankFrom_map_comp (f : α → β) : ∀ (n : Nat) (l : List α),
    (rankFrom n l).map (fun x => f x.2) = l.map f
  | _, [] => rfl
  | n, x :: xs => by simp [rankFrom, rankFrom_map_comp f (n + 1) xs]

theorem mem_latestRows (players : List LbPlayer) (snaps : List LbSnapshot)
    (x : LbPlayer × LbSnapshot) :
    x ∈ latestRows players snaps ↔
      x.1 ∈ players ∧ x.2 ∈ snaps ∧ x.2.uuid = x.1.uuid ∧
        x.2.timestamp = maxTimestamp snaps x.1.uuid := by
  unfold latestRows
  constructor
  · intro hx
    rcases List.mem_flatMap.1 hx with ⟨p, hp, hx2⟩
    rcases List.mem_map.1 hx2 with ⟨s, hs, rfl⟩
    rcases List.mem_filter.1 hs with ⟨hsnap, hcond⟩
    rw [decide_eq_true_iff] at hcond
    exact ⟨hp, hsnap, hcond.1, hcond.2⟩
  · intro h
    obtain ⟨h1, h2, h3, h4⟩ := h
    refine List.mem_flatMap.2 ⟨x.1, h1, ?_⟩
    refine List.mem_map.2 ⟨x.2, ?_, rfl⟩
    refine List.mem_filter.2 ⟨h2, ?_⟩
    rw [decide_eq_true_iff]
    exact ⟨h3, h4⟩

theorem timestamp_le_max (snaps : List LbSnapshot) (u : String)
    (s : LbSnapshot) (hs : s ∈ snaps) (hu : s.uuid = u) :
    s.timestamp ≤ maxTimestamp snaps u := by
  unfold maxTimestamp
  apply le_foldr_max
  exact List.mem_map_of_mem _ (List.mem_filter.2 ⟨hs, by simp [hu]⟩)

theorem length_le_one_of_pairwise_false (l : List α)
    (h : List.Pairwise (fun _ _ => False) l) : l.length ≤ 1 := by
  match l with
  | [] => exact Nat.zero_le 1
  | [_] => exact le_refl 1
  | a :: b :: t =>
    exact absurd ((List.pairwise_cons.1 h).1 b (List.mem_cons_self b t)) not_false

theorem nodup_of_length_le_one (l : List α) (h : l.length ≤ 1) : l.Nodup := by
  match l with
  | [] => exact List.nodup_nil
  | [a] => exact List.nodup_singleton a
  | a :: b :: t => simp at h

theorem filter_latest_length_le_one (snaps : List LbSnapshot) (u : String)
    (hs : List.Pairwise
      (fun s1 s2 : LbSnapshot => s1.uuid = s2.uuid → s1.timestamp ≠ s2.timestamp)
      snaps) :
    (snaps.filter fun s =>
      decide (s.uuid = u ∧ s.timestamp = maxTimestamp snaps u)).length ≤ 1 := by
  apply length_le_one_of_pairwise_false
  have hpw := hs.filter
    (fun s => decide (s.uuid = u ∧ s.timestamp = maxTimestamp snaps u))
  refine List.Pairwise.imp_of_mem ?_ hpw
  intro a b ha hb hrel
  rcases List.mem_filter.1 ha with ⟨_, hca⟩
  rcases List.mem_filter.1 hb with ⟨_, hcb⟩
  rw [decide_eq_true_iff] at hca hcb
  exact hrel (by rw [hca.1, hcb.1]) (by rw [hca.2, hcb.2])

theorem latestRows_uuid_nodup (players : List LbPlayer) (snaps : List LbSnapshot)
    (hp : (players.map (·.uuid)).Nodup)
    (hs : List.Pairwise
      (fun s1 s2 : LbSnapshot => s1.uuid = s2.uuid → s1.timestamp ≠ s2.timestamp)
      snaps) :
    ((latestRows players snaps).map (fun x => x.1.uuid)).Nodup := by
  induction players with
  | nil => simp [latestRows]
  | cons p ps ih =>
    rcases List.pairwise_cons.1 hp with ⟨hp1, hp2⟩
    have hblock : (((snaps.filter fun s =>
        decide (s.uuid = p.uuid ∧ s.timestamp = maxTimestamp snaps p.uuid)).map
        (fun s => (p, s))).map (fun x : LbPlayer × LbSnapshot => x.1.uuid)).Nodup := by
      apply nodup_of_length_le_one
      have := filter_latest_length_le_one snaps p.uuid hs
      simpa using this
    have hrest := ih hp2
    show ((latestRows (p :: ps) snaps).map (fun x => x.1.uuid)).Nodup
    unfold latestRows
    rw [List.flatMap_cons, List.map_append, List.nodup_append]
    refine ⟨hblock, hrest, ?_⟩
    intro u hu hu'
    rcases List.mem_map.1 hu with ⟨x, hx, rfl⟩
    rcases List.mem_map.1 hx with ⟨s, hsf, rfl⟩
    rcases List.mem_map.1 hu' with ⟨y, hy, huy⟩
    have hyp : y.1 ∈ ps := ((mem_latestRows ps snaps y).1 hy).1
    have : y.1.uuid ∈ ps.map (·.uuid) := List.mem_map_of_mem _ hyp
    rw [huy] at this
    exact hp1 _ (by simpa using this) rfl

end LeaderboardTracker

/-- C8: each leaderboard contains, per player, only that player's most
recent snapshot, ranked descending by the metric, truncated to at most
100 entries, with dense ranks from 1 (assuming distinct player uuids and
per-uuid distinct snapshot timestamps). -/
theorem C8_leaderboard_generation (players : List LeaderboardTracker.LbPlayer)
    (snaps : List LeaderboardTracker.LbSnapshot)
    (metric : LeaderboardTracker.LbSnapshot → Rat)
    (_hmetric : metric ∈ LeaderboardTracker.lbMetrics)
    (hp : (players.map (·.uuid)).Nodup)
    (hs : List.Pairwise
      (fun s1 s2 : LeaderboardTracker.LbSnapshot =>
        s1.uuid = s2.uuid → s1.timestamp ≠ s2.timestamp) snaps) :
    (LeaderboardTracker.generate_leaderboard players snaps metric).length ≤ 100 ∧
      (LeaderboardTracker.generate_leaderboard players snaps metric).map Prod.fst =
        List.range' 1
          (LeaderboardTracker.generate_leaderboard players snaps metric).length ∧
      List.Pairwise (fun a b => metric b.2.2 ≤ metric a.2.2)
        (LeaderboardTracker.generate_leaderboard players snaps metric) ∧
      ((LeaderboardTracker.generate_leaderboard players snaps metric).map
        (fun x => x.2.1.uuid)).Nodup ∧
      ∀ x ∈ LeaderboardTracker.generate_leaderboard players snaps metric,
        x.2.1 ∈ players ∧ x.2.2 ∈ snaps ∧ x.2.2.uuid = x.2.1.uuid ∧
          ∀ s ∈ snaps, s.uuid = x.2.1.uuid → s.timestamp ≤ x.2.2.timestamp := by
  haveI htot : IsTotal (LeaderboardTracker.LbPlayer × LeaderboardTracker.LbSnapshot)
      (fun a b => metric b.2 ≤ metric a.2) :=
    ⟨fun a b => le_total (metric b.2) (metric a.2)⟩
  haveI htrans : IsTrans (LeaderboardTracker.LbPlayer × LeaderboardTracker.LbSnapshot)
      (fun a b => metric b.2 ≤ metric a.2) :=
    ⟨fun _ _ _ h1 h2 => le_trans h2 h1⟩
  set rows := LeaderboardTracker.latestRows players snaps with hrows
  set sorted := rows.insertionSort (fun a b => metric b.2 ≤ metric a.2) with hsorted
  have hperm : List.Perm sorted rows := List.perm_insertionSort _ _
  have hlb : LeaderboardTracker.generate_leaderboard players snaps metric =
      LeaderboardTracker.rankFrom 1 (sorted.take 100) := rfl
  refine ⟨?_, ?_, ?_, ?_, ?_⟩
  · rw [hlb, LeaderboardTracker.rankFrom_length]
    exact List.length_take_le _ _
  · rw [hlb, LeaderboardTracker.rankFrom_map_fst, LeaderboardTracker.rankFrom_length]
  · rw [hlb]
    refine LeaderboardTracker.rankFrom_pairwise
      (fun a b : LeaderboardTracker.LbPlayer × LeaderboardTracker.LbSnapshot =>
        metric b.2 ≤ metric a.2) 1 _ ?_
    exact List.Pairwise.sublist (List.take_sublist _ _) (List.sorted_insertionSort _ _)
  · rw [hlb]
    have hmap : (LeaderboardTracker.rankFrom 1 (sorted.take 100)).map
        (fun x => x.2.1.uuid) = (sorted.take 100).map (fun y => y.1.uuid) :=
      LeaderboardTracker.rankFrom_map_comp
        (fun y : LeaderboardTracker.LbPlayer × LeaderboardTracker.LbSnapshot =>
          y.1.uuid) 1 _
    rw [hmap]
    have hnodup : (sorted.map (fun y => y.1.uuid)).Nodup :=
      (hperm.map _).nodup_iff.2
        (LeaderboardTracker.latestRows_uuid_nodup players snaps hp hs)
    exact List.Nodup.sublist
      (List.Sublist.map (fun y : LeaderboardTracker.LbPlayer ×
        LeaderboardTracker.LbSnapshot => y.1.uuid) (List.take_sublist 100 sorted))
      hnodup
  · intro x hx
    rw [hlb] at hx
    have hx2 : x.2 ∈ sorted.take 100 := LeaderboardTracker.rankFrom_snd_mem _ _ _ hx
    have hx3 : x.2 ∈ sorted := List.take_subset _ _ hx2
    have hx4 : x.2 ∈ rows := hperm.mem_iff.1 hx3
    rcases (LeaderboardTracker.mem_latestRows players snaps x.2).1 hx4
      with ⟨h1, h2, h3, h4⟩
    refine ⟨h1, h2, h3, ?_⟩
    intro s hsmem hsu
    calc s.timestamp ≤ LeaderboardTracker.maxTimestamp snaps x.2.1.uuid :=
          LeaderboardTracker.timestamp_le_max snaps _ s hsmem hsu
      _ = x.2.2.timestamp := h4.symm

/-- C8 witness: for a store with three players having wins 10, 50, 30,
the wins leaderboard lists them 50, 30, 10 with ranks 1, 2, 3, and the
general properties hold there. -/
theorem C8_leaderboard_generation_witness :
    LeaderboardTracker.c8Wins ∈ LeaderboardTracker.lbMetrics ∧
      (LeaderboardTracker.c8Players.map (·.uuid)).Nodup ∧
      List.Pairwise
        (fun s1 s2 : LeaderboardTracker.LbSnapshot =>
          s1.uuid = s2.uuid → s1.timestamp ≠ s2.timestamp)
        LeaderboardTracker.c8Snaps ∧
      (LeaderboardTracker.generate_leaderboard LeaderboardTracker.c8Players
          LeaderboardTracker.c8Snaps LeaderboardTracker.c8Wins).map
          (fun x => (x.1, x.2.1.username, x.2.2.wins)) =
        [(1, "B", 50), (2, "C", 30), (3, "A", 10)] ∧
      (LeaderboardTracker.generate_leaderboard LeaderboardTracker.c8Players
        LeaderboardTracker.c8Snaps LeaderboardTracker.c8Wins).length ≤ 100 ∧
      (LeaderboardTracker.generate_leaderboard LeaderboardTracker.c8Players
          LeaderboardTracker.c8Snaps LeaderboardTracker.c8Wins).map Prod.fst =
        List.range' 1 (LeaderboardTracker.generate_leaderboard
          LeaderboardTracker.c8Players LeaderboardTracker.c8Snaps
          LeaderboardTracker.c8Wins).length ∧
      ((LeaderboardTracker.generate_leaderboard LeaderboardTracker.c8Players
        LeaderboardTracker.c8Snaps LeaderboardTracker.c8Wins).map
        (fun x => x.2.1.uuid)).Nodup := by
  have hm : LeaderboardTracker.c8Wins ∈ LeaderboardTracker.lbMetrics :=
    List.mem_cons_self _ _
  have hp : (LeaderboardTracker.c8Players.map (·.uuid)).Nodup := by
    simp [LeaderboardTracker.c8Players]
  have hs : List.Pairwise
      (fun s1 s2 : LeaderboardTracker.LbSnapshot =>
        s1.uuid = s2.uuid → s1.timestamp ≠ s2.timestamp)
      LeaderboardTracker.c8Snaps := by
    simp only [LeaderboardTracker.c8Snaps, LeaderboardTracker.c8Snap]
    refine List.pairwise_cons.2 ⟨?_, List.pairwise_cons.2 ⟨?_, by simp⟩⟩
    · intro s hsm
      rcases List.mem_cons.1 hsm with rfl | hsm
      · intro h
        exact absurd h (by decide)
      · rcases List.mem_singleton.1 hsm with rfl
        intro h
        exact absurd h (by decide)
    · intro s hsm
      rcases List.mem_singleton.1 hsm with rfl
      intro h
      exact absurd h (by decide)
  have happ := C8_leaderboard_generation LeaderboardTracker.c8Players
    LeaderboardTracker.c8Snaps LeaderboardTracker.c8Wins hm hp hs
  refine ⟨hm, hp, hs, ?_, happ.1, happ.2.1, happ.2.2.2.1⟩
  norm_num [LeaderboardTracker.generate_leaderboard, LeaderboardTracker.latestRows,
    LeaderboardTracker.maxTimestamp, LeaderboardTracker.rankFrom,
    LeaderboardTracker.c8Players, LeaderboardTracker.c8Snaps,
    LeaderboardTracker.c8Snap, LeaderboardTracker.c8Wins,
    List.insertionSort, List.orderedInsert]

/-- C9: the claim (and the source's own comment "Do NOT update progress
for transient errors, so they are retried") requires a transiently failed
name to be retried on the next run; but the loop continues past the
failure, and a later line's success advances the shared cursor past the
failed line: on `["alice", "bob"]` with `"alice"` failing transiently,
the first run looks up both names, ends with cursor 2, and the second run
looks up nothing — `"alice"` is never retried. -/
theorem C9_transient_error_line_skipped :
    UuidIngestor.c9Lookup "alice" = UuidIngestor.LookupOutcome.failed ∧
      UuidIngestor.c9Run1.2 = ["alice", "bob"] ∧
      UuidIngestor.c9Run1.1.cursor = 2 ∧
      (UuidIngestor.process_scraped_names UuidIngestor.c9Lookup
        UuidIngestor.c9Lines UuidIngestor.c9Run1.1).2 = [] := by
  decide
